import Mathlib

/-!
Verification development for the kiosk PAX-terminal bridge.

The definitions below are a shallow embedding of the bridge service layer
(`src/services/paxBridgeService.ts`, the full-SDK variant treated as
canonical by the design notes) and of the payment screen state machine
(`PaymentScreen.tsx`).  Asynchronous vendor-bridge calls that may reject are
modelled as `Except String` values (the error string standing for the thrown
exception message); JSON response objects are modelled as records of optional
string fields covering the keys the code reads.  JavaScript nullish
coalescing `a ?? b` is modelled by `jsOr`, and JavaScript string truthiness
(empty string is falsy) by `jsTruthy`.
-/

namespace Kiosk

/-- Host-information block of a raw terminal response, in both key casings
read by `parseResponse`. -/
structure HostInfo where
  hostResponseMessage : Option String
  HostResponseMessage : Option String
  hostResponseCode : Option String
  HostResponseCode : Option String
deriving DecidableEq, Repr

/-- Account-information block of a raw terminal response, as read by the
payment screen handlers. -/
structure AccountInfo where
  account : Option String
  cardType : Option String
  entryMode : Option String
deriving DecidableEq, Repr

/-- Raw vendor response mapping: the keys `parseResponse` and the payment
handlers read, each optional, string valued. -/
structure RawResponse where
  ResponseCode : Option String
  responseCode : Option String
  ResponseMessage : Option String
  responseMessage : Option String
  hostInformation : Option HostInfo
  HostInformation : Option HostInfo
  accountInformation : Option AccountInfo
deriving DecidableEq, Repr

/-- Normalized result type `POSLinkResponse` of the bridge service. -/
structure POSLinkResponse where
  responseCode : String
  responseMessage : String
  rawData : RawResponse
  isSuccess : Bool
deriving DecidableEq, Repr

/-- Entry-mode bitmap `TransactionEntryModeBitmap`. -/
structure TransactionEntryModeBitmap where
  manual : Bool
  swipe : Bool
  chip : Bool
  contactless : Bool
  scan : Bool
deriving DecidableEq, Repr

/-- Amount block `AmountInformation` of a transaction request. -/
structure AmountInformation where
  transactionAmount : String
  tipAmount : Option String
  cashbackAmount : Option String
  taxAmount : Option String
deriving DecidableEq, Repr

/-- Trace block `TraceInformation` of a transaction request. -/
structure TraceInformation where
  ecrReferenceNumber : Option String
  transactionNumber : Option String
deriving DecidableEq, Repr

/-- Behavior block `TransactionBehavior` of a transaction request. -/
structure TransactionBehavior where
  EntryMode : Option TransactionEntryModeBitmap
deriving DecidableEq, Repr

/-- Transaction request `DoCreditRequest` sent to the vendor bridge. -/
structure DoCreditRequest where
  transactionType : String
  tenderType : Option String
  amountInformation : AmountInformation
  traceInformation : Option TraceInformation
  TransactionBehavior : Option TransactionBehavior
deriving DecidableEq, Repr

/-- Payment methods `PaymentMethod` selecting an entry-mode preset. -/
inductive PaymentMethod where
  | qr
  | nfc
  | swipe
  | all
deriving DecidableEq, Repr

/-- JavaScript nullish coalescing `a ?? b` on optional values. -/
def jsOr {α : Type} : Option α → Option α → Option α
  | some a, _ => some a
  | none, b => b

/-- JavaScript truthiness of an optional string: present and non-empty. -/
def jsTruthy : Option String → Bool
  | some s => !(s == "")
  | none => false

/-- Entry-mode presets `EntryModePresets` from the bridge service. -/
def EntryModePresets : PaymentMethod → TransactionEntryModeBitmap
  | .qr => ⟨false, false, false, false, true⟩
  | .nfc => ⟨false, false, false, true, false⟩
  | .swipe => ⟨false, true, true, false, false⟩
  | .all => ⟨true, true, true, true, true⟩

/-- Host-block adjustment inside `parseResponse`: when the defaulted pair is
the ERROR sentinel and a host block is present, adopt a truthy host message,
and a truthy host code, else DECLINED when a host message was adopted. -/
def hostAdjust (host : HostInfo) (code msg : String) : String × String :=
  let hMsg := jsOr host.hostResponseMessage host.HostResponseMessage
  let hCode := jsOr host.hostResponseCode host.HostResponseCode
  let msg2 := if jsTruthy hMsg then hMsg.getD "" else msg
  let code2 :=
    if jsTruthy hCode then hCode.getD ""
    else if jsTruthy hMsg then "DECLINED" else code
  (code2, msg2)

/-- Response normalizer `parseResponse` of the bridge service. -/
def parseResponse (json : RawResponse) : POSLinkResponse :=
  let code := (jsOr json.ResponseCode json.responseCode).getD "ERROR"
  let msg := (jsOr json.ResponseMessage json.responseMessage).getD "Unknown Error"
  let cm :=
    if code = "ERROR" ∧ msg = "Unknown Error" then
      match jsOr json.hostInformation json.HostInformation with
      | some host => hostAdjust host code msg
      | none => (code, msg)
    else (code, msg)
  ⟨cm.1, cm.2, json, cm.1 == "000000"⟩

/-- Empty raw mapping (JSON object with none of the read keys). -/
def emptyRaw : RawResponse := ⟨none, none, none, none, none, none, none⟩

/-- Synthetic error result `errorResponse` built when a bridge call throws;
the argument is the thrown error message. -/
def errorResponse (e : String) : POSLinkResponse := ⟨"ERROR", e, emptyRaw, false⟩

/-- Low-level `doCreditRequest`: the vendor call outcome (resolved response
string, or thrown error) is normalized; any exception, from the call or from
JSON parsing, is converted into `errorResponse` rather than propagated, as
witnessed by the total return type. -/
def doCreditRequest (callResult : Except String String)
    (parseJson : String → Except String RawResponse) : POSLinkResponse :=
  match callResult with
  | .error e => errorResponse e
  | .ok respStr =>
    match parseJson respStr with
    | .error e => errorResponse e
    | .ok json => parseResponse json

/-- Low-level `doGiftRequest`, identical error handling to `doCreditRequest`. -/
def doGiftRequest (callResult : Except String String)
    (parseJson : String → Except String RawResponse) : POSLinkResponse :=
  match callResult with
  | .error e => errorResponse e
  | .ok respStr =>
    match parseJson respStr with
    | .error e => errorResponse e
    | .ok json => parseResponse json

/-- JavaScript String.prototype.trim, modelled structurally: drop whitespace
characters from both ends of the character list. -/
def jsTrim (s : String) : String :=
  ⟨((s.data.dropWhile Char.isWhitespace).reverse.dropWhile Char.isWhitespace).reverse⟩

/-- Connection setup `setTcpSetting`: an empty or whitespace-only address
returns false before the vendor bridge call; otherwise the bridge call result
is returned as is, a rejection passing through to the caller (the source
catch block rethrows). -/
def setTcpSetting (bridge : String → Int → Int → Except String Bool)
    (ip : String) (port timeout : Int) : Except String Bool :=
  if ip = "" ∨ jsTrim ip = "" then .ok false
  else bridge ip port timeout

/-- JavaScript String(x) applied to a possibly undefined string field. -/
def jsStringOfOpt (o : Option String) : String := o.getD "undefined"

/-- Session setup `init` (the initializeSession operation): first the raw
vendor setTcpSetting call, and only when it returns true the no-argument
vendor init call, whose parsed response must carry ResponseCode 000000; any
thrown error is caught and yields false.  `tcp` is the outcome of the vendor
connection-setup call, `initResp` the outcome of the vendor init call, and
`parseJson` models JSON.parse. -/
def init (tcp : Except String Bool) (initResp : Except String String)
    (parseJson : String → Except String RawResponse) : Bool :=
  match tcp with
  | .error _ => false
  | .ok false => false
  | .ok true =>
    match initResp with
    | .error _ => false
    | .ok respStr =>
      match parseJson respStr with
      | .error _ => false
      | .ok resp => jsStringOfOpt resp.ResponseCode == "000000"

/-- Cleanup `cancel`: the vendor cancel outcome is swallowed (logged only),
so the caller always observes a successful unit result. -/
def cancel (vendorCancel : Except String Unit) : Except String Unit :=
  match vendorCancel with
  | .ok u => .ok u
  | .error _ => .ok ()

/-- Cleanup `remove` (teardown): same swallow-errors shape as `cancel`. -/
def remove (vendorRemove : Except String Unit) : Except String Unit :=
  match vendorRemove with
  | .ok u => .ok u
  | .error _ => .ok ()

/-- JavaScript Math.round on a rational (half rounds up). -/
def jsRound (q : ℚ) : ℤ := Rat.floor (q + 1 / 2)

/-- Request object built by the high-level `doGift` wrapper: amount in minor
units as a string, the entry-mode preset for the chosen method, and the
caller-supplied trace reference. -/
def giftRequestOf (TransType : String) (amount : ℚ) (method : PaymentMethod)
    (ecrRef : String) : DoCreditRequest :=
  ⟨TransType, none,
   ⟨toString (jsRound (amount * 100)), none, none, none⟩,
   some ⟨some ecrRef, none⟩,
   some ⟨some (EntryModePresets method)⟩⟩

/-- High-level `doGift`: builds the request and performs the low-level gift
call; `stringify` models JSON.stringify and `call` the vendor doGift call. -/
def doGift (TransType : String) (amount : ℚ) (method : PaymentMethod)
    (ecrRef : String) (stringify : DoCreditRequest → String)
    (call : String → Except String String)
    (parseJson : String → Except String RawResponse) : POSLinkResponse :=
  doGiftRequest (call (stringify (giftRequestOf TransType amount method ecrRef))) parseJson

/-- Payment screen step enumeration `PaymentStep`. -/
inductive PaymentStep where
  | select
  | card_processing
  | gift_card_method_select
  | gift_card_entry
  | gift_card_processing
deriving DecidableEq, Repr

/-- Local component state of the payment screen that the handlers mutate. -/
structure PaymentScreenState where
  paymentStep : PaymentStep
  giftCardNumber : String
  giftCardBalance : Option ℚ
  isProcessing : Bool
  error : Option String
deriving DecidableEq, Repr

/-- Request sent by the gift-card QR path (handleGiftCardQR calls doGift with
TransType SALE and method qr on the grand total). -/
def qrGiftRequest (grandTotal : ℚ) (ecrRef : String) : DoCreditRequest :=
  giftRequestOf "SALE" grandTotal .qr ecrRef

/-- Request sent by the gift-card swipe path (handleGiftCardSwipe calls
doGift with TransType SALE and method swipe on the grand total). -/
def swipeGiftRequest (grandTotal : ℚ) (ecrRef : String) : DoCreditRequest :=
  giftRequestOf "SALE" grandTotal .swipe ecrRef

/-- State transition of handleGiftCardQR, given the result of the awaited
doGift call: enter gift_card_processing, then on failure record the error
and fall back to gift_card_method_select; on success extract the card number
from rawData account information, rejecting an absent or empty number;
finally clear the processing flag. -/
def handleGiftCardQR (result : POSLinkResponse) (s : PaymentScreenState) :
    PaymentScreenState :=
  let s1 := { s with paymentStep := PaymentStep.gift_card_processing,
                     isProcessing := true, error := none }
  let s2 :=
    if !result.isSuccess then
      { s1 with error := some result.responseMessage,
                paymentStep := PaymentStep.gift_card_method_select }
    else
      let cardNum := (result.rawData.accountInformation.bind fun ai => ai.account).getD ""
      if cardNum = "" then
        { s1 with error := some "No gift card data returned",
                  paymentStep := PaymentStep.gift_card_method_select }
      else
        { s1 with giftCardNumber := cardNum,
                  paymentStep := PaymentStep.gift_card_entry }
  { s2 with isProcessing := false }

/-- State transition of handleGiftCardSwipe, same shape as the QR path. -/
def handleGiftCardSwipe (result : POSLinkResponse) (s : PaymentScreenState) :
    PaymentScreenState :=
  let s1 := { s with paymentStep := PaymentStep.gift_card_processing,
                     isProcessing := true, error := none }
  let s2 :=
    if !result.isSuccess then
      { s1 with error := some result.responseMessage,
                paymentStep := PaymentStep.gift_card_method_select }
    else
      let cardNum := (result.rawData.accountInformation.bind fun ai => ai.account).getD ""
      if cardNum = "" then
        { s1 with error := some "No gift card data returned",
                  paymentStep := PaymentStep.gift_card_method_select }
      else
        { s1 with giftCardNumber := cardNum,
                  paymentStep := PaymentStep.gift_card_entry }
  { s2 with isProcessing := false }

/-- Confirmed-cancel branch of handleCancel while a request is in flight:
the bridge cancel is attempted inside a try block whose catch ignores the
outcome, then the processing flag is cleared, the step reset to select and
the error flag cleared. -/
def handleCancelConfirm (vendorCancel : Except String Unit)
    (s : PaymentScreenState) : PaymentScreenState :=
  let s1 :=
    match cancel vendorCancel with
    | .ok _ => s
    | .error _ => s
  { s1 with isProcessing := false, paymentStep := PaymentStep.select,
            error := none }

/-- Claim C1: for every raw response mapping, the normalized result has
isSuccess true exactly when its normalized responseCode is 000000. -/
theorem parseResponse_isSuccess_iff (json : RawResponse) :
    (parseResponse json).isSuccess = true ↔
      (parseResponse json).responseCode = "000000" := by
  simp [parseResponse]

lemma jsTruthy_some (s : String) (h : s ≠ "") : jsTruthy (some s) = true := by
  have hb : (s == "") = false := beq_eq_false_iff_ne.mpr h
  simp [jsTruthy, hb]

lemma jsTruthy_none : jsTruthy none = false := rfl

lemma getD_ne_empty_of_jsTruthy (o : Option String) (h : jsTruthy o = true) :
    o.getD "" ≠ "" := by
  cases o with
  | none => simp [jsTruthy] at h
  | some s =>
    simp only [Option.getD_some]
    intro hs
    rw [hs] at h
    simp [jsTruthy] at h

lemma jsOr_getD_ne_empty (a b : Option String) (d : String)
    (ha : a ≠ some "") (hb : b ≠ some "") (hd : d ≠ "") :
    (jsOr a b).getD d ≠ "" := by
  cases a with
  | some s =>
    simp only [jsOr, Option.getD_some]
    intro h
    exact ha (by rw [h])
  | none =>
    cases b with
    | some t =>
      simp only [jsOr, Option.getD_some]
      intro h
      exact hb (by rw [h])
    | none => simpa [jsOr] using hd

lemma hostAdjust_fst_ne_empty (host : HostInfo) (code msg : String) (hc : code ≠ "") :
    (hostAdjust host code msg).1 ≠ "" := by
  simp only [hostAdjust]
  cases htc : jsTruthy (jsOr host.hostResponseCode host.HostResponseCode) with
  | true => simpa [htc] using getD_ne_empty_of_jsTruthy _ htc
  | false =>
    cases htm : jsTruthy (jsOr host.hostResponseMessage host.HostResponseMessage) with
    | true => simp [htc, htm]
    | false => simpa [htc, htm] using hc

lemma hostAdjust_snd_ne_empty (host : HostInfo) (code msg : String) (hm : msg ≠ "") :
    (hostAdjust host code msg).2 ≠ "" := by
  simp only [hostAdjust]
  cases htm : jsTruthy (jsOr host.hostResponseMessage host.HostResponseMessage) with
  | true => simpa [htm] using getD_ne_empty_of_jsTruthy _ htm
  | false => simpa [htm] using hm

lemma hostAdjust_msg_adopted (host : HostInfo) (code msg m : String)
    (h6 : host.hostResponseMessage = some m) (h7 : m ≠ "") :
    (hostAdjust host code msg).2 = m := by
  simp [hostAdjust, jsOr, h6, jsTruthy_some m h7]

lemma hostAdjust_code_declined (host : HostInfo) (code msg m : String)
    (h6 : host.hostResponseMessage = some m) (h7 : m ≠ "")
    (hc1 : host.hostResponseCode = none) (hc2 : host.HostResponseCode = none) :
    (hostAdjust host code msg).1 = "DECLINED" := by
  simp [hostAdjust, jsOr, h6, hc1, hc2, jsTruthy_some m h7, jsTruthy_none]

lemma parseResponse_no_top (json : RawResponse) (host : HostInfo)
    (h1 : json.ResponseCode = none) (h2 : json.responseCode = none)
    (h3 : json.ResponseMessage = none) (h4 : json.responseMessage = none)
    (h5 : json.hostInformation = some host) :
    parseResponse json =
      ⟨(hostAdjust host "ERROR" "Unknown Error").1,
       (hostAdjust host "ERROR" "Unknown Error").2, json,
       (hostAdjust host "ERROR" "Unknown Error").1 == "000000"⟩ := by
  simp [parseResponse, jsOr, h1, h2, h3, h4, h5]

/-- Raw mapping whose only content is an empty-string host response message:
the counterexample input for claim C2. -/
def hostEmptyMsgRaw : RawResponse :=
  ⟨none, none, none, none, some ⟨some "", none, none, none⟩, none, none⟩

/-- Claim C2 counterexample: a raw mapping with no top-level code or message
that contains hostInformation.hostResponseMessage with the empty string as
value; the claim demands responseMessage equal to that host message (empty)
and responseCode DECLINED, but the normalizer ignores a falsy host message
and yields the Unknown Error and ERROR defaults. -/
theorem parseResponse_host_empty_message_cex :
    hostEmptyMsgRaw.ResponseCode = none ∧ hostEmptyMsgRaw.responseCode = none ∧
    hostEmptyMsgRaw.ResponseMessage = none ∧ hostEmptyMsgRaw.responseMessage = none ∧
    (hostEmptyMsgRaw.hostInformation.bind fun h => h.hostResponseMessage) = some "" ∧
    (parseResponse hostEmptyMsgRaw).responseMessage ≠ "" ∧
    (parseResponse hostEmptyMsgRaw).responseCode ≠ "DECLINED" := by
  decide

/-- Claim C2 (amended): for every raw mapping with no top-level code or
message fields whose hostInformation block carries a non-empty
hostResponseMessage, the output responseMessage equals that host message, and
when the host block carries no host response code under either casing the
output responseCode is DECLINED. -/
theorem parseResponse_host_fallback (json : RawResponse) (host : HostInfo) (m : String)
    (h1 : json.ResponseCode = none) (h2 : json.responseCode = none)
    (h3 : json.ResponseMessage = none) (h4 : json.responseMessage = none)
    (h5 : json.hostInformation = some host)
    (h6 : host.hostResponseMessage = some m) (h7 : m ≠ "") :
    (parseResponse json).responseMessage = m ∧
    (host.hostResponseCode = none → host.HostResponseCode = none →
      (parseResponse json).responseCode = "DECLINED") := by
  rw [parseResponse_no_top json host h1 h2 h3 h4 h5]
  exact ⟨hostAdjust_msg_adopted host "ERROR" "Unknown Error" m h6 h7,
    fun hc1 hc2 =>
      hostAdjust_code_declined host "ERROR" "Unknown Error" m h6 h7 hc1 hc2⟩

/-- Raw mapping with only a non-empty host response message, used to witness
the amended claim C2. -/
def hostDeclineRaw : RawResponse :=
  ⟨none, none, none, none, some ⟨some "NO ACCOUNT", none, none, none⟩, none, none⟩

/-- Witness for claim C2: normalizing hostDeclineRaw adopts the host message
and the DECLINED code. -/
theorem parseResponse_host_fallback_witness :
    (parseResponse hostDeclineRaw).responseMessage = "NO ACCOUNT" ∧
    (parseResponse hostDeclineRaw).responseCode = "DECLINED" := by
  have h := parseResponse_host_fallback hostDeclineRaw
    ⟨some "NO ACCOUNT", none, none, none⟩ "NO ACCOUNT"
    rfl rfl rfl rfl rfl rfl (by decide)
  exact ⟨h.1, h.2 rfl rfl⟩

/-- Claim C3: the transaction operations never propagate an exception:
whatever the vendor-call outcome, doCreditRequest and doGiftRequest are total
into POSLinkResponse, and both a rejected vendor call and a failing JSON
parse yield the synthetic errorResponse, whose code is ERROR and whose
isSuccess is false. -/
theorem requests_never_throw (e s : String) (p : String → Except String RawResponse) :
    doCreditRequest (Except.error e) p = errorResponse e ∧
    doCreditRequest (Except.ok s) (fun _ => Except.error e) = errorResponse e ∧
    doGiftRequest (Except.error e) p = errorResponse e ∧
    doGiftRequest (Except.ok s) (fun _ => Except.error e) = errorResponse e ∧
    (errorResponse e).responseCode = "ERROR" ∧ (errorResponse e).isSuccess = false :=
  ⟨rfl, rfl, rfl, rfl, rfl, rfl⟩

lemma parseResponse_ResponseCode_000000 (json : RawResponse)
    (h : json.ResponseCode = some "000000") :
    (parseResponse json).responseCode = "000000" := by
  simp only [parseResponse, jsOr, h, Option.getD_some]
  split
  · rename_i hcontra
    exact absurd hcontra.1 (by decide)
  · rfl

/-- Claim C4: init is two-phase.  First, when the vendor connection-setup
call reports false, init returns false for every possible outcome of the
vendor init call, which models that the init call is not invoked.  Second,
init returns true only when the connection setup succeeded with true and the
parsed init response normalizes to response code 000000. -/
theorem init_two_phase :
    (∀ (initResp : Except String String) (parseJson : String → Except String RawResponse),
      init (Except.ok false) initResp parseJson = false) ∧
    (∀ (tcp : Except String Bool) (initResp : Except String String)
        (parseJson : String → Except String RawResponse),
      init tcp initResp parseJson = true →
      tcp = Except.ok true ∧
      ∃ respStr resp, initResp = Except.ok respStr ∧
        parseJson respStr = Except.ok resp ∧
        (parseResponse resp).responseCode = "000000") := by
  constructor
  · intro initResp parseJson
    rfl
  · intro tcp initResp parseJson h
    cases tcp with
    | error e => exact absurd h (by simp [init])
    | ok b =>
      cases b with
      | false => exact absurd h (by simp [init])
      | true =>
        refine ⟨rfl, ?_⟩
        cases initResp with
        | error e => exact absurd h (by simp [init])
        | ok respStr =>
          refine ⟨respStr, ?_⟩
          cases hp : parseJson respStr with
          | error e =>
            rw [init, hp] at h
            simp at h
          | ok resp =>
            refine ⟨resp, rfl, rfl, ?_⟩
            have hval : jsStringOfOpt resp.ResponseCode = "000000" := by
              have h2 := h
              simp only [init, hp] at h2
              exact eq_of_beq h2
            have hc : resp.ResponseCode = some "000000" := by
              cases hrc : resp.ResponseCode with
              | none =>
                rw [hrc] at hval
                exact absurd hval (by decide)
              | some str =>
                rw [hrc] at hval
                exact congrArg some hval
            exact parseResponse_ResponseCode_000000 resp hc

/-- Raw init response carrying the success code, for the claim C4 witness. -/
def initOkRaw : RawResponse := ⟨some "000000", none, none, none, none, none, none⟩

/-- Witness for claim C4: a concrete successful two-phase run. -/
theorem init_two_phase_witness :
    init (Except.ok true) (Except.ok "resp") (fun _ => Except.ok initOkRaw) = true ∧
    ((Except.ok true : Except String Bool) = Except.ok true ∧
      ∃ respStr resp, (Except.ok "resp" : Except String String) = Except.ok respStr ∧
        (fun _ => Except.ok initOkRaw : String → Except String RawResponse) respStr =
          Except.ok resp ∧
        (parseResponse resp).responseCode = "000000") :=
  ⟨by decide, init_two_phase.2 (Except.ok true) (Except.ok "resp")
      (fun _ => Except.ok initOkRaw) (by decide)⟩

/-- Claim C5: for an address that passes validation, a rejection of the
vendor connection-setup call passes through setTcpSetting to the caller,
while the cleanup operations and the transaction operations swallow the same
failure into a successful unit result or a synthetic error result. -/
theorem setTcpSetting_propagates (bridge : String → Int → Int → Except String Bool)
    (ip : String) (port timeout : Int) (e : String)
    (hip : jsTrim ip ≠ "") (hb : bridge ip port timeout = Except.error e) :
    setTcpSetting bridge ip port timeout = Except.error e ∧
    (∀ e2, cancel (Except.error e2) = Except.ok ()) ∧
    (∀ e2, remove (Except.error e2) = Except.ok ()) ∧
    (∀ e2 (p : String → Except String RawResponse),
      doCreditRequest (Except.error e2) p = errorResponse e2 ∧
      doGiftRequest (Except.error e2) p = errorResponse e2) := by
  refine ⟨?_, fun e2 => rfl, fun e2 => rfl, fun e2 p => ⟨rfl, rfl⟩⟩
  have hip0 : ¬(ip = "" ∨ jsTrim ip = "") := by
    rintro (h | h)
    · exact hip (by rw [h]; decide)
    · exact hip h
  unfold setTcpSetting
  rw [if_neg hip0, hb]

/-- Witness for claim C5: a concrete rejected connection setup surfaces the
vendor error. -/
theorem setTcpSetting_propagates_witness :
    setTcpSetting (fun _ _ _ => Except.error "ECONNREFUSED") "192.168.1.50" 10009 30 =
      Except.error "ECONNREFUSED" :=
  (setTcpSetting_propagates (fun _ _ _ => Except.error "ECONNREFUSED")
    "192.168.1.50" 10009 30 "ECONNREFUSED" (by decide) rfl).1

/-- Claim C6: for every bridge, port and timeout, an address that is empty
or whitespace-only makes setTcpSetting return false; the quantification over
every bridge outcome models that the vendor call is not invoked. -/
theorem setTcpSetting_empty_address (bridge : String → Int → Int → Except String Bool)
    (ip : String) (port timeout : Int) (hip : jsTrim ip = "") :
    setTcpSetting bridge ip port timeout = Except.ok false := by
  unfold setTcpSetting
  rw [if_pos (Or.inr hip)]

/-- Witness for claim C6: a whitespace-only address returns false even when
the bridge call would reject. -/
theorem setTcpSetting_empty_address_witness :
    setTcpSetting (fun _ _ _ => Except.error "must not be invoked") "   " 10009 30 =
      Except.ok false :=
  setTcpSetting_empty_address _ "   " 10009 30 (by decide)

/-- Raw mapping whose top-level ResponseCode is present with an empty-string
value: the counterexample input for claim C7. -/
def emptyCodeRaw : RawResponse := ⟨some "", none, none, none, none, none, none⟩

/-- Claim C7 counterexample: the normalizer propagates a present-but-empty
top-level ResponseCode verbatim, so the output responseCode is the empty
string, refuting the claim that both fields are always non-empty. -/
theorem parseResponse_empty_code_cex :
    (parseResponse emptyCodeRaw).responseCode = "" ∧
    (parseResponse emptyCodeRaw).responseMessage = "Unknown Error" := by
  decide

/-- Claim C7 (amended): responseCode and responseMessage are always defined
strings, non-empty for every raw mapping whose present top-level code and
message fields are non-empty (absent fields fall back to truthy host fields
and then to the ERROR and Unknown Error defaults); in particular the empty
raw mapping normalizes to ERROR, Unknown Error and isSuccess false. -/
theorem parseResponse_populated (json : RawResponse)
    (h1 : json.ResponseCode ≠ some "") (h2 : json.responseCode ≠ some "")
    (h3 : json.ResponseMessage ≠ some "") (h4 : json.responseMessage ≠ some "") :
    ((parseResponse json).responseCode ≠ "" ∧
      (parseResponse json).responseMessage ≠ "") ∧
    parseResponse emptyRaw = ⟨"ERROR", "Unknown Error", emptyRaw, false⟩ := by
  refine ⟨?_, by decide⟩
  have hcode := jsOr_getD_ne_empty json.ResponseCode json.responseCode "ERROR"
    h1 h2 (by decide)
  have hmsg := jsOr_getD_ne_empty json.ResponseMessage json.responseMessage "Unknown Error"
    h3 h4 (by decide)
  constructor
  · show (parseResponse json).responseCode ≠ ""
    simp only [parseResponse]
    split
    · split
      · exact hostAdjust_fst_ne_empty _ _ _ hcode
      · exact hcode
    · exact hcode
  · show (parseResponse json).responseMessage ≠ ""
    simp only [parseResponse]
    split
    · split
      · exact hostAdjust_snd_ne_empty _ _ _ hmsg
      · exact hmsg
    · exact hmsg

/-- Witness for claim C7: the empty raw mapping has non-empty normalized
code and message. -/
theorem parseResponse_populated_witness :
    (parseResponse emptyRaw).responseCode ≠ "" ∧
    (parseResponse emptyRaw).responseMessage ≠ "" :=
  (parseResponse_populated emptyRaw (by decide) (by decide) (by decide) (by decide)).1

/-- Raw mapping in which an uppercase ResponseCode shadows the lowercase
fields: the counterexample input for claim C8. -/
def shadowedRaw : RawResponse := ⟨some "A", some "B", none, some "M", none, none, none⟩

/-- Claim C8 counterexample: a raw mapping whose lowercase responseCode and
responseMessage are present and which has no host block, yet normalizing
returns the uppercase ResponseCode value instead of the lowercase one,
because the uppercase casing takes priority. -/
theorem parseResponse_uppercase_shadow_cex :
    shadowedRaw.responseCode = some "B" ∧ shadowedRaw.responseMessage = some "M" ∧
    shadowedRaw.hostInformation = none ∧ shadowedRaw.HostInformation = none ∧
    (parseResponse shadowedRaw).responseCode = "A" ∧
    (parseResponse shadowedRaw).responseCode ≠ "B" := by
  decide

lemma parseResponse_lower_only (json : RawResponse) (c m : String)
    (h1 : json.ResponseCode = none) (h2 : json.responseCode = some c)
    (h3 : json.ResponseMessage = none) (h4 : json.responseMessage = some m)
    (h5 : json.hostInformation = none) (h6 : json.HostInformation = none) :
    (parseResponse json).responseCode = c ∧
      (parseResponse json).responseMessage = m := by
  simp only [parseResponse, jsOr, h1, h2, h3, h4, h5, h6, Option.getD_some]
  split
  · exact ⟨rfl, rfl⟩
  · exact ⟨rfl, rfl⟩

/-- Already-normalized shape rebuilt from a normalized result: lowercase code
and message only, no host block. -/
def renormInput (r : POSLinkResponse) : RawResponse :=
  ⟨none, some r.responseCode, none, some r.responseMessage, none, none, none⟩

/-- Claim C8 (amended): for every raw mapping whose lowercase responseCode
and responseMessage are present, whose uppercase ResponseCode and
ResponseMessage are absent, and which contains no host block, normalizing
returns exactly that code and message; in particular re-normalizing the
code and message of any already-normalized result leaves them unchanged. -/
theorem parseResponse_idempotent :
    (∀ (json : RawResponse) (c m : String),
      json.ResponseCode = none → json.responseCode = some c →
      json.ResponseMessage = none → json.responseMessage = some m →
      json.hostInformation = none → json.HostInformation = none →
      (parseResponse json).responseCode = c ∧
        (parseResponse json).responseMessage = m) ∧
    (∀ raw : RawResponse,
      (parseResponse (renormInput (parseResponse raw))).responseCode =
        (parseResponse raw).responseCode ∧
      (parseResponse (renormInput (parseResponse raw))).responseMessage =
        (parseResponse raw).responseMessage) :=
  ⟨fun json c m h1 h2 h3 h4 h5 h6 => parseResponse_lower_only json c m h1 h2 h3 h4 h5 h6,
   fun raw => parseResponse_lower_only _ _ _ rfl rfl rfl rfl rfl rfl⟩

/-- Already-normalized raw shape used to witness the amended claim C8. -/
def lowerOnlyRaw : RawResponse := ⟨none, some "000000", none, some "OK", none, none, none⟩

/-- Witness for claim C8: a concrete already-normalized shape is returned
unchanged. -/
theorem parseResponse_idempotent_witness :
    (parseResponse lowerOnlyRaw).responseCode = "000000" ∧
    (parseResponse lowerOnlyRaw).responseMessage = "OK" :=
  parseResponse_idempotent.1 lowerOnlyRaw "000000" "OK" rfl rfl rfl rfl rfl rfl

/-- Claim C9 counterexample: the request built by the gift-card swipe path
does not carry a swipe-only bitmap; its entry mode enables chip as well. -/
theorem giftCard_swipe_bitmap_cex :
    (swipeGiftRequest 1 "REF1").TransactionBehavior =
      some ⟨some ⟨false, true, true, false, false⟩⟩ ∧
    (swipeGiftRequest 1 "REF1").TransactionBehavior ≠
      some ⟨some ⟨false, true, false, false, false⟩⟩ :=
  ⟨rfl, by decide⟩

/-- Claim C9 (amended): the gift-card QR path sends a scan-only entry-mode
bitmap; the swipe path sends the swipe preset, which enables swipe and chip
with manual, contactless and scan false; and on a successful result whose
rawData account information carries a non-empty account number, both
handlers store that card number and move to gift_card_entry. -/
theorem giftCard_entry_modes :
    (∀ (t : ℚ) (r : String), (qrGiftRequest t r).TransactionBehavior =
        some ⟨some ⟨false, false, false, false, true⟩⟩) ∧
    (∀ (t : ℚ) (r : String), (swipeGiftRequest t r).TransactionBehavior =
        some ⟨some ⟨false, true, true, false, false⟩⟩) ∧
    (∀ (result : POSLinkResponse) (s : PaymentScreenState) (n : String),
      result.isSuccess = true →
      (result.rawData.accountInformation.bind fun ai => ai.account) = some n →
      n ≠ "" →
      ((handleGiftCardQR result s).giftCardNumber = n ∧
       (handleGiftCardQR result s).paymentStep = PaymentStep.gift_card_entry ∧
       (handleGiftCardSwipe result s).giftCardNumber = n ∧
       (handleGiftCardSwipe result s).paymentStep = PaymentStep.gift_card_entry)) := by
  refine ⟨fun t r => rfl, fun t r => rfl, ?_⟩
  intro result s n hs hacc hne
  simp [handleGiftCardQR, handleGiftCardSwipe, hs, hacc, hne]

/-- Successful gift response carrying an account number, for the claim C9
witness. -/
def giftOkResult : POSLinkResponse :=
  ⟨"000000", "APPROVED",
   ⟨some "000000", none, some "APPROVED", none, none, none,
    some ⟨some "6006491234", none, none⟩⟩,
   true⟩

/-- Idle gift-card method-select state, for the claim C9 witness. -/
def idleState : PaymentScreenState :=
  ⟨PaymentStep.gift_card_method_select, "", none, false, none⟩

/-- Witness for claim C9: a successful scan stores the returned card number
and moves to gift_card_entry. -/
theorem giftCard_entry_modes_witness :
    (handleGiftCardQR giftOkResult idleState).giftCardNumber = "6006491234" ∧
    (handleGiftCardQR giftOkResult idleState).paymentStep = PaymentStep.gift_card_entry ∧
    (handleGiftCardSwipe giftOkResult idleState).giftCardNumber = "6006491234" ∧
    (handleGiftCardSwipe giftOkResult idleState).paymentStep = PaymentStep.gift_card_entry :=
  giftCard_entry_modes.2.2 giftOkResult idleState "6006491234" rfl rfl (by decide)

/-- Claim C10: confirming cancellation while a request is in flight during
card_processing resets the step to select, clears the error flag and clears
the processing flag, for every vendor cancel outcome, success or thrown. -/
theorem handleCancel_confirm_resets (vendorCancel : Except String Unit)
    (s : PaymentScreenState) (h1 : s.paymentStep = PaymentStep.card_processing)
    (h2 : s.isProcessing = true) :
    (handleCancelConfirm vendorCancel s).paymentStep = PaymentStep.select ∧
    (handleCancelConfirm vendorCancel s).error = none ∧
    (handleCancelConfirm vendorCancel s).isProcessing = false := by
  cases vendorCancel <;> simp [handleCancelConfirm, cancel]

/-- In-flight card-processing state with a stale error, for the claim C10
witness. -/
def processingState : PaymentScreenState :=
  ⟨PaymentStep.card_processing, "", none, true, some "stale error"⟩

/-- Witness for claim C10: a throwing vendor cancel still resets the state
machine to select and clears the error. -/
theorem handleCancel_confirm_resets_witness :
    (handleCancelConfirm (Except.error "cancel failed") processingState).paymentStep =
        PaymentStep.select ∧
    (handleCancelConfirm (Except.error "cancel failed") processingState).error = none ∧
    (handleCancelConfirm (Except.error "cancel failed") processingState).isProcessing =
        false :=
  handleCancel_confirm_resets (Except.error "cancel failed") processingState rfl rfl

end Kiosk
